import Mathlib

/-!
Shallow embedding of the authentication and error-handling core of the
`rust-web-app` boilerplate (src/boilerplates/rust-web-app).  Pure Rust
functions become Lean functions; the ambient clock (`chrono::Utc::now()`),
the process environment (`std::env::var`), the bcrypt random salt and the
external database are passed as explicit arguments.  Timestamps (`i64`) are
modelled as unbounded `Int`: all quantities involved are far from the
64-bit boundary.  Cryptographic primitives (HMAC-SHA256 used by the
`jsonwebtoken` crate, the bcrypt key-derivation) are modelled symbolically
as injective constructors, the standard perfect-cryptography assumption.
-/

deriving instance DecidableEq for Except

namespace RustWebApp

/-- Error taxonomy from `src/utils/error.rs` (`enum AppError`).  The
`DatabaseError` variant carries a `sqlx::Error`; since `into_response`
only ever uses its rendered form `e.to_string()`, it is modelled by that
rendered string. -/
inductive AppError where
  | DatabaseError (e : String)
  | NotFound (msg : String)
  | BadRequest (msg : String)
  | Unauthorized (msg : String)
  | InternalError (msg : String)
  | ValidationError (msg : String)
deriving DecidableEq, Repr

/-- Minimal JSON value universe, enough to express the serde-serialized
bodies the code produces. -/
inductive Json where
  | str (s : String)
  | jbool (b : Bool)
  | obj (fields : List (String × Json))

/-- Whether a JSON value is an object with a field of the given key. -/
def Json.hasField : Json → String → Bool
  | .obj fields, k => fields.any (fun f => f.1 == k)
  | _, _ => false

/-- Field lookup in a JSON object, first occurrence, as serde consumers
would see it. -/
def Json.getField : Json → String → Option Json
  | .obj fields, k => (fields.find? (fun f => f.1 == k)).map (fun f => f.2)
  | _, _ => none

/-- The `(status, error_type, message)` triple computed by the `match` in
`impl IntoResponse for AppError` (src/utils/error.rs lines 44-63). -/
def appErrorParts : AppError → Nat × String × String
  | .DatabaseError e => (500, "DATABASE_ERROR", e)
  | .NotFound msg => (404, "NOT_FOUND", msg)
  | .BadRequest msg => (400, "BAD_REQUEST", msg)
  | .Unauthorized msg => (401, "UNAUTHORIZED", msg)
  | .InternalError msg => (500, "INTERNAL_ERROR", msg)
  | .ValidationError msg => (422, "VALIDATION_ERROR", msg)

/-- The serde serialization of `struct ErrorResponse { error, message }`
(src/utils/error.rs lines 21-25): a JSON object with exactly those two
fields, in declaration order. -/
def errorResponseJson (error message : String) : Json :=
  Json.obj [("error", Json.str error), ("message", Json.str message)]

/-- `AppError::into_response` (src/utils/error.rs lines 42-72): computes
the parts triple and renders `(status, Json(ErrorResponse))`. -/
def into_response (e : AppError) : Nat × Json :=
  let parts := appErrorParts e
  (parts.1, errorResponseJson parts.2.1 parts.2.2)

/-- Claims record from `src/utils/auth.rs`: subject, expiry and issue
timestamps (Unix seconds, `i64` modelled as `Int`). -/
structure Claims where
  sub : String
  exp : Int
  iat : Int
deriving DecidableEq, Repr

/-- Symbolic HMAC-SHA256 signature over the serialized claims (the
serialization of `Claims` is injective, so the signing input is the claims
record itself).  The constructor is injective in both the secret and the
claims, modelling an ideal MAC. -/
inductive Sig where
  | hmacSha256 (secret : String) (claims : Claims)
deriving DecidableEq, Repr

/-- Wire form of a token string as the `jsonwebtoken` decoder classifies
it: either a well-formed compact JWT carrying a claims record and a
signature, or a string that does not parse as a JWT at all. -/
inductive TokenWire where
  | jwt (claims : Claims) (sig : Sig)
  | malformed (raw : String)
deriving DecidableEq, Repr

/-- Internal failure causes of `jsonwebtoken::decode`, restricted to the
ones reachable here. -/
inductive JwtError where
  | invalidToken
  | invalidSignature
  | expiredSignature
deriving DecidableEq, Repr

/-- Display rendering of the `jsonwebtoken` error kinds (the crate prints
the Debug name of the kind). -/
def renderJwtError : JwtError → String
  | .invalidToken => "InvalidToken"
  | .invalidSignature => "InvalidSignature"
  | .expiredSignature => "ExpiredSignature"

/-- Default validation leeway of the `jsonwebtoken` crate:
`Validation::default()` sets `leeway: 60` seconds. -/
def jwtLeeway : Int := 60

/-- `jsonwebtoken::decode` with `Validation::default()`: a malformed
string fails to parse; then the signature is checked against the one
recomputed from the given secret; then `exp` is validated against the
current time minus the default 60-second leeway (expired iff
`exp < now - leeway`). -/
def decodeJwt (t : TokenWire) (secret : String) (now : Int) : Except JwtError Claims :=
  match t with
  | .malformed _ => .error .invalidToken
  | .jwt c sig =>
    if sig = Sig.hmacSha256 secret c then
      if c.exp < now - jwtLeeway then .error .expiredSignature
      else .ok c
    else .error .invalidSignature

/-- `create_jwt` (src/utils/auth.rs lines 13-27): builds
`Claims { sub: user_id, exp: now + expiration, iat: now }` and signs with
the secret.  Encoding of an in-range record never fails, so the
`InternalError` arm is unreachable in the model. -/
def create_jwt (user_id secret : String) (expiration now : Int) : Except AppError TokenWire :=
  .ok (TokenWire.jwt ⟨user_id, now + expiration, now⟩
        (Sig.hmacSha256 secret ⟨user_id, now + expiration, now⟩))

/-- `verify_jwt` (src/utils/auth.rs lines 29-37): decodes with the default
validation and maps every decode failure to
`AppError::Unauthorized(format!("Invalid token: {}", e))`. -/
def verify_jwt (t : TokenWire) (secret : String) (now : Int) : Except AppError Claims :=
  (decodeJwt t secret now).mapError
    (fun e => AppError.Unauthorized ("Invalid token: " ++ renderJwtError e))

/-- The token value `create_jwt user_id secret expiration now` returns. -/
def issuedToken (user_id secret : String) (expiration now : Int) : TokenWire :=
  TokenWire.jwt ⟨user_id, now + expiration, now⟩
    (Sig.hmacSha256 secret ⟨user_id, now + expiration, now⟩)

theorem create_jwt_eq (user_id secret : String) (expiration now : Int) :
    create_jwt user_id secret expiration now = .ok (issuedToken user_id secret expiration now) := rfl

/-- Value of one hexadecimal digit character, `none` otherwise. -/
def hexDigitVal (c : Char) : Option Nat :=
  if '0' ≤ c ∧ c ≤ '9' then some (c.toNat - 48)
  else if 'a' ≤ c ∧ c ≤ 'f' then some (c.toNat - 87)
  else if 'A' ≤ c ∧ c ≤ 'F' then some (c.toNat - 55)
  else none

/-- Big-endian accumulation of hexadecimal digits; `none` as soon as a
character is not a hex digit. -/
def parseHexDigits (cs : List Char) : Option Nat :=
  cs.foldl
    (fun acc c =>
      match acc, hexDigitVal c with
      | some n, some d => some (16 * n + d)
      | _, _ => none)
    (some 0)

/-- Modelled from the uuid crate: `Uuid::parse_str` on the two textual
forms exercised here — simple (32 hex digits) and hyphenated
(8-4-4-4-12).  The urn- and brace-wrapped forms the crate also accepts are
not reachable from any claim.  The parsed value is the 128-bit integer. -/
def uuidParse (s : String) : Option Nat :=
  let cs := s.data
  if cs.length == 32 then parseHexDigits cs
  else if cs.length == 36 &&
      cs.get? 8 == some '-' && cs.get? 13 == some '-' &&
      cs.get? 18 == some '-' && cs.get? 23 == some '-' then
    parseHexDigits
      ((cs.enum.filter
          (fun p => !(p.1 == 8 || p.1 == 13 || p.1 == 18 || p.1 == 23))).map
        (fun p => p.2))
  else none

/-- One hexadecimal digit, lowercase. -/
def hexChar (n : Nat) : Char :=
  Char.ofNat (if n < 10 then 48 + n else 87 + n)

/-- Fixed-width lowercase hexadecimal rendering, big-endian. -/
def toHexPad : Nat → Nat → List Char
  | _, 0 => []
  | n, Nat.succ len => toHexPad (n / 16) len ++ [hexChar (n % 16)]

/-- Modelled from the uuid crate: `Uuid::to_string`, the hyphenated
lowercase 8-4-4-4-12 rendering. -/
def uuidToString (u : Nat) : String :=
  let ds := toHexPad u 32
  String.mk (ds.take 8 ++ '-' :: (ds.drop 8).take 4 ++ '-' :: (ds.drop 12).take 4
    ++ '-' :: (ds.drop 16).take 4 ++ '-' :: ds.drop 20)

/-- `struct AuthUser` from `src/middleware/auth.rs`: the authenticated
identity handed to endpoint logic; `user_id: Uuid` is the 128-bit value. -/
structure AuthUser where
  user_id : Nat
deriving DecidableEq, Repr

/-- The `Authorization` header value of an inbound request, as the
extractor's chain classifies it: a UTF-8 value of the form
`Bearer <token>` (carrying the token's wire form), a UTF-8 value that does
not start with `Bearer ` (for example `Token abc`), or bytes that are not
valid UTF-8 (where `to_str()` fails). -/
inductive AuthHeaderVal where
  | bearer (t : TokenWire)
  | other (s : String)
  | nonUtf8
deriving DecidableEq, Repr

/-- `AuthUser::from_request_parts` (src/middleware/auth.rs lines 21-46).
Explicit arguments replace the ambient request (the optional
`Authorization` header), process environment (the optional value of
`APP__APPLICATION__JWT_SECRET`, defaulted to `"secret"` when unset) and
clock.  Steps, in order: header presence and UTF-8 decoding, `Bearer `
scheme strip, `verify_jwt` under the environment-derived secret, and
`Uuid::parse_str` on the verified subject. -/
def from_request_parts (authHeader : Option AuthHeaderVal)
    (envJwtSecret : Option String) (now : Int) : Except AppError AuthUser :=
  match authHeader with
  | none => .error (.Unauthorized "Missing authorization header")
  | some .nonUtf8 => .error (.Unauthorized "Missing authorization header")
  | some (.other _) => .error (.Unauthorized "Invalid authorization format")
  | some (.bearer token) =>
    let jwt_secret := envJwtSecret.getD "secret"
    match verify_jwt token jwt_secret now with
    | .error e => .error e
    | .ok claims =>
      match uuidParse claims.sub with
      | none => .error (.Unauthorized "Invalid user ID in token")
      | some user_id => .ok ⟨user_id⟩

/-- UTF-8 bytes of one character (RFC 3629), as `Nat` byte values. -/
def utf8EncodeCharNat (c : Char) : List Nat :=
  let n := c.toNat
  if n < 128 then [n]
  else if n < 2048 then [192 + n / 64, 128 + n % 64]
  else if n < 65536 then [224 + n / 4096, 128 + (n / 64) % 64, 128 + n % 64]
  else [240 + n / 262144, 128 + (n / 4096) % 64, 128 + (n / 64) % 64, 128 + n % 64]

/-- UTF-8 byte sequence of a string. -/
def utf8Bytes (s : String) : List Nat :=
  (s.data.map utf8EncodeCharNat).flatten

/-- Effective bcrypt input of the bcrypt crate's `_hash_password`: the
password bytes are null-terminated and then truncated to 72 bytes (the
crate silently ignores everything past 72). -/
def bcryptInput (password : String) : List Nat :=
  (utf8Bytes password ++ [0]).take 72

/-- Symbolic bcrypt EKS-Blowfish derived key: injective in the cost, the
16-byte salt (modelled as a `Nat`) and the (truncated) input bytes. -/
inductive BcryptKey where
  | eks (cost : Nat) (salt : Nat) (input : List Nat)
deriving DecidableEq, Repr

/-- A bcrypt digest string `$2b$cost$salt·key` in modular-crypt format,
modelled by its parsed parts. -/
structure BcryptDigest where
  cost : Nat
  salt : Nat
  key : BcryptKey
deriving DecidableEq, Repr

/-- `bcrypt::DEFAULT_COST`. -/
def DEFAULT_COST : Nat := 12

/-- `hash_password` (src/utils/auth.rs lines 39-42): bcrypt with the
default cost and a salt drawn freshly from the RNG inside the call, passed
here explicitly.  The default cost is within bounds, so the crate's only
failure arm (`InternalError`) is unreachable. -/
def hash_password (password : String) (salt : Nat) : Except AppError BcryptDigest :=
  .ok ⟨DEFAULT_COST, salt, .eks DEFAULT_COST salt (bcryptInput password)⟩

/-- `verify_password` (src/utils/auth.rs lines 44-47): bcrypt re-derives
the key from the digest's own cost and salt and compares. -/
def verify_password (password : String) (digest : BcryptDigest) : Except AppError Bool :=
  .ok (digest.key == BcryptKey.eks digest.cost digest.salt (bcryptInput password))

/-- A stored user row (the `models` module; fields per the spec's
Credential Record `{email, password_hash, name, id}`). -/
structure User where
  id : Nat
  email : String
  password_hash : BcryptDigest
  name : String
deriving DecidableEq, Repr

/-- Login payload (the `models` module's `LoginRequest`). -/
structure LoginRequest where
  email : String
  password : String
deriving DecidableEq, Repr

/-- Registration payload (the `models` module's `CreateUserRequest`). -/
structure CreateUserRequest where
  email : String
  password : String
  name : String
deriving DecidableEq, Repr

/-- `ApplicationSettings` (src/config/mod.rs lines 24-28). -/
structure ApplicationSettings where
  jwt_secret : String
  jwt_expiration : Int
  environment : String
deriving DecidableEq, Repr

/-- `login` (src/routes/users.rs lines 66-101).  External collaborators
are explicit arguments: `validation` is the result of
`payload.validate()` (the `models` module's derived validator, not under
src/), `findByEmail` the `SELECT … WHERE email` query (a database error is
a `String`, rendered), and `now` the clock read inside `create_jwt`. -/
def login (validation : Except String Unit)
    (findByEmail : String → Except String (Option User))
    (payload : LoginRequest) (settings : ApplicationSettings) (now : Int) :
    Except AppError (TokenWire × User) :=
  match validation with
  | .error e => .error (.ValidationError e)
  | .ok _ =>
    match findByEmail payload.email with
    | .error e => .error (.DatabaseError e)
    | .ok none => .error (.Unauthorized "Invalid credentials")
    | .ok (some user) =>
      match verify_password payload.password user.password_hash with
      | .error e => .error e
      | .ok false => .error (.Unauthorized "Invalid credentials")
      | .ok true =>
        match create_jwt (uuidToString user.id) settings.jwt_secret
            settings.jwt_expiration now with
        | .error e => .error e
        | .ok token => .ok (token, user)

/-- `register` (src/routes/users.rs lines 19-64), with the same explicit
collaborators plus the `INSERT … RETURNING *` statement and the salt the
bcrypt RNG draws inside `hash_password`. -/
def register (validation : Except String Unit)
    (findByEmail : String → Except String (Option User))
    (insertUser : String → BcryptDigest → String → Except String User)
    (payload : CreateUserRequest) (settings : ApplicationSettings)
    (salt : Nat) (now : Int) : Except AppError (TokenWire × User) :=
  match validation with
  | .error e => .error (.ValidationError e)
  | .ok _ =>
    match findByEmail payload.email with
    | .error e => .error (.DatabaseError e)
    | .ok (some _) => .error (.BadRequest "User already exists")
    | .ok none =>
      match hash_password payload.password salt with
      | .error e => .error e
      | .ok password_hash =>
        match insertUser payload.email password_hash payload.name with
        | .error e => .error (.DatabaseError e)
        | .ok user =>
          match create_jwt (uuidToString user.id) settings.jwt_secret
              settings.jwt_expiration now with
          | .error e => .error e
          | .ok token => .ok (token, user)

/-! Shared facts about verification of issued tokens. -/

theorem verify_issued_ok (s k : String) (L iat now : Int)
    (h : ¬(iat + L < now - jwtLeeway)) :
    verify_jwt (issuedToken s k L iat) k now = .ok ⟨s, iat + L, iat⟩ := by
  simp only [verify_jwt, issuedToken, decodeJwt]
  rw [if_pos trivial, if_neg h]
  rfl

theorem verify_issued_expired (s k : String) (L iat now : Int)
    (h : iat + L < now - jwtLeeway) :
    verify_jwt (issuedToken s k L iat) k now =
      .error (.Unauthorized ("Invalid token: " ++ renderJwtError .expiredSignature)) := by
  simp only [verify_jwt, issuedToken, decodeJwt]
  rw [if_pos trivial, if_pos h]
  rfl

theorem verify_issued_wrong_secret (s k k2 : String) (L iat now : Int) (h : k2 ≠ k) :
    verify_jwt (issuedToken s k L iat) k2 now =
      .error (.Unauthorized ("Invalid token: " ++ renderJwtError .invalidSignature)) := by
  simp only [verify_jwt, issuedToken, decodeJwt]
  rw [if_neg (fun hc => h (by injection hc with h1 _; exact h1.symm))]
  rfl

/-- C1 counterexample: the rendered failure body for `NotFound "resource
missing"` is the two-field object `{error, message}` and carries no
`success` field at all, contradicting the claimed three-field shape. -/
theorem C1_no_success_field_counterexample :
    into_response (AppError.NotFound "resource missing") =
      (404, Json.obj [("error", Json.str "NOT_FOUND"),
                      ("message", Json.str "resource missing")]) ∧
    (into_response (AppError.NotFound "resource missing")).2.hasField "success" = false :=
  ⟨rfl, by decide⟩

/-- C1 (amended): for every `AppError` value, the rendered failure body is
a JSON object containing exactly the two fields `error` (the variant's
code string) and `message` (the variant's message text); no `success`
field is present. -/
theorem C1_failure_body_shape :
    (∀ m, (into_response (.DatabaseError m)).2 =
      Json.obj [("error", .str "DATABASE_ERROR"), ("message", .str m)]) ∧
    (∀ m, (into_response (.NotFound m)).2 =
      Json.obj [("error", .str "NOT_FOUND"), ("message", .str m)]) ∧
    (∀ m, (into_response (.BadRequest m)).2 =
      Json.obj [("error", .str "BAD_REQUEST"), ("message", .str m)]) ∧
    (∀ m, (into_response (.Unauthorized m)).2 =
      Json.obj [("error", .str "UNAUTHORIZED"), ("message", .str m)]) ∧
    (∀ m, (into_response (.InternalError m)).2 =
      Json.obj [("error", .str "INTERNAL_ERROR"), ("message", .str m)]) ∧
    (∀ m, (into_response (.ValidationError m)).2 =
      Json.obj [("error", .str "VALIDATION_ERROR"), ("message", .str m)]) ∧
    (∀ e : AppError, (into_response e).2.hasField "success" = false) :=
  ⟨fun _ => rfl, fun _ => rfl, fun _ => rfl, fun _ => rfl, fun _ => rfl, fun _ => rfl,
   fun e => by cases e <;> rfl⟩

/-- C5: the mapping from `AppError` variant to HTTP status and error code
is total and exactly the fixed table, independently of the carried
message; the rendered response's status is the table's status. -/
theorem C5_status_code_table :
    (∀ m, appErrorParts (.DatabaseError m) = (500, "DATABASE_ERROR", m)) ∧
    (∀ m, appErrorParts (.NotFound m) = (404, "NOT_FOUND", m)) ∧
    (∀ m, appErrorParts (.BadRequest m) = (400, "BAD_REQUEST", m)) ∧
    (∀ m, appErrorParts (.Unauthorized m) = (401, "UNAUTHORIZED", m)) ∧
    (∀ m, appErrorParts (.InternalError m) = (500, "INTERNAL_ERROR", m)) ∧
    (∀ m, appErrorParts (.ValidationError m) = (422, "VALIDATION_ERROR", m)) ∧
    (∀ e : AppError, (into_response e).1 = (appErrorParts e).1) :=
  ⟨fun _ => rfl, fun _ => rfl, fun _ => rfl, fun _ => rfl, fun _ => rfl, fun _ => rfl,
   fun _ => rfl⟩

/-- C2 counterexample: the token issued for `"u-1"` at t=0 with a
3600-second lifetime under secret `"k"` still verifies successfully at
t=3601, where the claim says verification fails. -/
theorem C2_still_valid_at_3601_counterexample :
    create_jwt "u-1" "k" 3600 0 = .ok (issuedToken "u-1" "k" 3600 0) ∧
    verify_jwt (issuedToken "u-1" "k" 3600 0) "k" 3601 = .ok ⟨"u-1", 3600, 0⟩ :=
  ⟨rfl, by decide⟩

/-- C2 (amended): token verification applies the `jsonwebtoken` default
60-second leeway: a token verifies under its issuing secret exactly while
`now ≤ expires_at + 60` and fails with Unauthorized (expired) once
`expires_at + 60 < now`; in particular the 3600-second token verifies at
t=3599 and at t=3601 and first fails at t=3661. -/
theorem C2_expiry_with_leeway : ∀ (s k : String) (L iat now : Int) (tok : TokenWire),
    create_jwt s k L iat = .ok tok →
    ((now ≤ iat + L + jwtLeeway → verify_jwt tok k now = .ok ⟨s, iat + L, iat⟩) ∧
     (iat + L + jwtLeeway < now →
       verify_jwt tok k now =
         .error (.Unauthorized ("Invalid token: " ++ renderJwtError .expiredSignature)))) := by
  intro s k L iat now tok h
  simp only [create_jwt, Except.ok.injEq] at h
  subst h
  refine ⟨fun hnow => ?_, fun hnow => ?_⟩
  · exact verify_issued_ok s k L iat now
      (show ¬(iat + L < now - jwtLeeway) by unfold jwtLeeway at hnow ⊢; omega)
  · exact verify_issued_expired s k L iat now
      (show iat + L < now - jwtLeeway by unfold jwtLeeway at hnow ⊢; omega)

/-- C2 witness: the token issued at t=0 with lifetime 3600 under `"k"`
verifies at t=3599 and fails expired at t=3661. -/
theorem C2_expiry_with_leeway_witness :
    verify_jwt (issuedToken "u-1" "k" 3600 0) "k" 3599 = .ok ⟨"u-1", 3600, 0⟩ ∧
    verify_jwt (issuedToken "u-1" "k" 3600 0) "k" 3661 =
      .error (.Unauthorized ("Invalid token: " ++ renderJwtError .expiredSignature)) :=
  ⟨(C2_expiry_with_leeway "u-1" "k" 3600 0 3599 _ rfl).1 (by decide),
   (C2_expiry_with_leeway "u-1" "k" 3600 0 3661 _ rfl).2 (by decide)⟩

/-- C3 counterexample: three tokens failing verification under the same
secret `"k"` — a malformed one, one signed with a different secret, and an
expired one — produce three pairwise distinct externally visible
Unauthorized messages. -/
theorem C3_distinct_messages_counterexample :
    verify_jwt (.malformed "zzz") "k" 100 =
      .error (.Unauthorized "Invalid token: InvalidToken") ∧
    verify_jwt (issuedToken "u" "k2" 3600 0) "k" 100 =
      .error (.Unauthorized "Invalid token: InvalidSignature") ∧
    verify_jwt (issuedToken "u" "k" 10 0) "k" 100 =
      .error (.Unauthorized "Invalid token: ExpiredSignature") ∧
    ("Invalid token: InvalidToken" : String) ≠ "Invalid token: InvalidSignature" ∧
    ("Invalid token: InvalidToken" : String) ≠ "Invalid token: ExpiredSignature" ∧
    ("Invalid token: InvalidSignature" : String) ≠ "Invalid token: ExpiredSignature" := by
  refine ⟨by decide, by decide, by decide, by decide, by decide, by decide⟩

/-- C3 (amended): every verification failure surfaces as the Unauthorized
variant whose message is the fixed text `Invalid token: ` followed by the
rendering of the internal failure cause — so the three causes share the
variant, status and message prefix but remain distinguishable in the
externally visible message. -/
theorem C3_message_embeds_cause : ∀ (t : TokenWire) (k : String) (now : Int) (e : JwtError),
    decodeJwt t k now = .error e →
    verify_jwt t k now = .error (.Unauthorized ("Invalid token: " ++ renderJwtError e)) := by
  intro t k now e h
  unfold verify_jwt
  rw [h]
  rfl

/-- C3 witness: instantiation at a malformed token. -/
theorem C3_message_embeds_cause_witness :
    verify_jwt (.malformed "zzz") "k" 100 =
      .error (.Unauthorized ("Invalid token: " ++ renderJwtError .invalidToken)) :=
  C3_message_embeds_cause (.malformed "zzz") "k" 100 .invalidToken rfl

/-- C6: round-trip — for every subject, secret and positive lifetime, the
token `create_jwt` issues verifies under the same secret at the moment of
issuance and the verified claims carry the original subject. -/
theorem C6_roundtrip : ∀ (s k : String) (L now : Int), 0 < L →
    ∀ tok, create_jwt s k L now = .ok tok →
    ∃ c : Claims, verify_jwt tok k now = .ok c ∧ c.sub = s := by
  intro s k L now hL tok h
  simp only [create_jwt, Except.ok.injEq] at h
  subst h
  exact ⟨⟨s, now + L, now⟩,
    verify_issued_ok s k L now now
      (show ¬(now + L < now - jwtLeeway) by unfold jwtLeeway; omega), rfl⟩

/-- C6 witness: round-trip at subject `u-1`, secret `k`, lifetime 3600,
issuance time 0. -/
theorem C6_roundtrip_witness :
    ∃ c : Claims, verify_jwt (issuedToken "u-1" "k" 3600 0) "k" 0 = .ok c ∧ c.sub = "u-1" :=
  C6_roundtrip "u-1" "k" 3600 0 (by decide) (issuedToken "u-1" "k" 3600 0) rfl

/-- C7: a token issued with secret `k1` fails verification under every
secret `k2 ≠ k1`, and the failure is exactly the Unauthorized variant
(with the invalid-signature message). -/
theorem C7_wrong_secret_unauthorized : ∀ (s k1 k2 : String) (L iat now : Int), k2 ≠ k1 →
    ∀ tok, create_jwt s k1 L iat = .ok tok →
    verify_jwt tok k2 now =
      .error (.Unauthorized ("Invalid token: " ++ renderJwtError .invalidSignature)) := by
  intro s k1 k2 L iat now hne tok h
  simp only [create_jwt, Except.ok.injEq] at h
  subst h
  exact verify_issued_wrong_secret s k1 k2 L iat now hne

/-- C7 witness: the token issued under `k1` is rejected under `k2`. -/
theorem C7_wrong_secret_unauthorized_witness :
    verify_jwt (issuedToken "u-1" "k1" 3600 0) "k2" 0 =
      .error (.Unauthorized ("Invalid token: " ++ renderJwtError .invalidSignature)) :=
  C7_wrong_secret_unauthorized "u-1" "k1" "k2" 3600 0 0 (by decide)
    (issuedToken "u-1" "k1" 3600 0) rfl

/-- C4: the extractor verifies under the environment-derived secret
(`APP__APPLICATION__JWT_SECRET`, defaulted to `"secret"` when unset, per
the definition of `from_request_parts`); for a token issued with the
configured secret `k` (as `login`/`register` do via
`settings.jwt_secret`), extraction succeeds only when the effective
environment secret equals `k`, and whenever it differs the request fails
with the Unauthorized variant. -/
theorem C4_extractor_env_secret :
    ∀ (s k : String) (L iat now : Int) (env : Option String) (tok : TokenWire),
    create_jwt s k L iat = .ok tok →
    ((∀ u : AuthUser,
        from_request_parts (some (.bearer tok)) env now = .ok u → env.getD "secret" = k) ∧
     (env.getD "secret" ≠ k →
        ∃ m, from_request_parts (some (.bearer tok)) env now = .error (.Unauthorized m))) := by
  intro s k L iat now env tok h
  rw [create_jwt_eq] at h
  injection h with h
  subst h
  constructor
  · intro u hok
    by_contra hne
    rw [show from_request_parts (some (.bearer (issuedToken s k L iat))) env now =
          .error (.Unauthorized ("Invalid token: " ++ renderJwtError .invalidSignature)) from ?_] at hok
    · exact Except.noConfusion hok
    · simp only [from_request_parts,
        verify_issued_wrong_secret s k (env.getD "secret") L iat now hne]
  · intro hne
    refine ⟨"Invalid token: " ++ renderJwtError .invalidSignature, ?_⟩
    simp only [from_request_parts,
      verify_issued_wrong_secret s k (env.getD "secret") L iat now hne]

/-- C4 witness: with the environment secret set to `other` and the token
issued under the configured secret `cfg`, extraction fails Unauthorized. -/
theorem C4_extractor_env_secret_witness :
    ∃ m, from_request_parts (some (.bearer (issuedToken "u-1" "cfg" 3600 0)))
          (some "other") 0 = .error (.Unauthorized m) :=
  (C4_extractor_env_secret "u-1" "cfg" 3600 0 0 (some "other")
    (issuedToken "u-1" "cfg" 3600 0) rfl).2 (by decide)

/-- C8 counterexample: a valid token whose subject `"x"` is not a UUID is
rejected with the message `Invalid user ID in token`, not the claimed
`invalid identity in token`. -/
theorem C8_message_text_counterexample :
    from_request_parts (some (.bearer (issuedToken "x" "secret" 3600 0))) none 0 =
      .error (.Unauthorized "Invalid user ID in token") ∧
    from_request_parts (some (.bearer (issuedToken "x" "secret" 3600 0))) none 0 ≠
      .error (.Unauthorized "invalid identity in token") := by
  refine ⟨by decide, by decide⟩

/-- C8 (amended): the extractor evaluates exactly three outcomes in
order — missing header, non-UTF-8 header or a header not of the form
`Bearer <token>` (for example the wrong scheme `Token abc`) give
Unauthorized; a token failing verification propagates its Unauthorized
error; a verified token yields `AuthUser` with the parsed subject when
the subject parses as a UUID, and `Unauthorized "Invalid user ID in
token"` otherwise. -/
theorem C8_three_outcomes : ∀ (env : Option String) (now : Int),
    from_request_parts none env now = .error (.Unauthorized "Missing authorization header") ∧
    from_request_parts (some .nonUtf8) env now =
      .error (.Unauthorized "Missing authorization header") ∧
    (∀ s, from_request_parts (some (.other s)) env now =
      .error (.Unauthorized "Invalid authorization format")) ∧
    (∀ (t : TokenWire) (e : AppError), verify_jwt t (env.getD "secret") now = .error e →
      from_request_parts (some (.bearer t)) env now = .error e) ∧
    (∀ (t : TokenWire) (c : Claims), verify_jwt t (env.getD "secret") now = .ok c →
      ((∀ u, uuidParse c.sub = some u →
          from_request_parts (some (.bearer t)) env now = .ok ⟨u⟩) ∧
       (uuidParse c.sub = none →
          from_request_parts (some (.bearer t)) env now =
            .error (.Unauthorized "Invalid user ID in token")))) := by
  intro env now
  refine ⟨rfl, rfl, fun _ => rfl, fun t e h => ?_, fun t c h => ⟨fun u hu => ?_, fun hu => ?_⟩⟩
  · simp only [from_request_parts, h]
  · simp only [from_request_parts, h, hu]
  · simp only [from_request_parts, h, hu]

/-- C8 witness: the wrong scheme `Token abc` is rejected; a verified token
with the all-zero UUID subject produces `AuthUser 0`; a malformed bearer
token propagates its Unauthorized error. -/
theorem C8_three_outcomes_witness :
    from_request_parts (some (.other "Token abc")) none 0 =
      .error (.Unauthorized "Invalid authorization format") ∧
    from_request_parts
      (some (.bearer (issuedToken "00000000-0000-0000-0000-000000000000" "secret" 3600 0)))
      none 0 = .ok ⟨0⟩ ∧
    from_request_parts (some (.bearer (.malformed "zzz"))) none 0 =
      .error (.Unauthorized "Invalid token: InvalidToken") :=
  ⟨(C8_three_outcomes none 0).2.2.1 "Token abc",
   ((C8_three_outcomes none 0).2.2.2.2
      (issuedToken "00000000-0000-0000-0000-000000000000" "secret" 3600 0)
      ⟨"00000000-0000-0000-0000-000000000000", 3600, 0⟩ (by decide)).1 0 (by decide),
   (C8_three_outcomes none 0).2.2.2.1 (.malformed "zzz")
      (.Unauthorized "Invalid token: InvalidToken") (by decide)⟩

/-- C9: for a validated login payload, the unknown-email case and the
wrong-password case both fail with the Unauthorized variant carrying the
character-for-character identical message `Invalid credentials`. -/
theorem C9_login_uniform_unauthorized :
    ∀ (findByEmail : String → Except String (Option User)) (p : LoginRequest)
      (settings : ApplicationSettings) (now : Int),
    (findByEmail p.email = .ok none →
      login (.ok ()) findByEmail p settings now =
        .error (.Unauthorized "Invalid credentials")) ∧
    (∀ u : User, findByEmail p.email = .ok (some u) →
      verify_password p.password u.password_hash = .ok false →
      login (.ok ()) findByEmail p settings now =
        .error (.Unauthorized "Invalid credentials")) := by
  intro findByEmail p settings now
  refine ⟨fun h => ?_, fun u h hv => ?_⟩
  · simp only [login, h]
  · simp only [login, h, hv]

/-- Concrete stored user for the C9 witness: the digest on file is the
bcrypt hash of `right`. -/
def storedUser : User :=
  ⟨0, "a@b.c", ⟨DEFAULT_COST, 0, .eks DEFAULT_COST 0 (bcryptInput "right")⟩, "Alice"⟩

/-- C9 witness: with the password on file being `right`, logging in with
`wrong` against an existing account and logging in against an absent
account produce the same Unauthorized error. -/
theorem C9_login_uniform_unauthorized_witness :
    login (.ok ()) (fun _ => .ok none) ⟨"a@b.c", "wrong"⟩ ⟨"cfg", 3600, "development"⟩ 0 =
      .error (.Unauthorized "Invalid credentials") ∧
    login (.ok ()) (fun _ => .ok (some storedUser)) ⟨"a@b.c", "wrong"⟩
        ⟨"cfg", 3600, "development"⟩ 0 =
      .error (.Unauthorized "Invalid credentials") :=
  ⟨(C9_login_uniform_unauthorized (fun _ => .ok none) ⟨"a@b.c", "wrong"⟩
      ⟨"cfg", 3600, "development"⟩ 0).1 rfl,
   (C9_login_uniform_unauthorized (fun _ => .ok (some storedUser)) ⟨"a@b.c", "wrong"⟩
      ⟨"cfg", 3600, "development"⟩ 0).2 storedUser rfl (by decide)⟩

/-- A 72-byte password of `a` characters. -/
def longPw72 : String := String.mk (List.replicate 72 'a')

/-- A 73-byte password agreeing with `longPw72` on its first 72 bytes. -/
def longPw73 : String := String.mk (List.replicate 72 'a' ++ ['b'])

/-- C10 counterexample: bcrypt truncates its input to 72 bytes, so the
distinct passwords `longPw72` and `longPw73` collide — verifying
`longPw72` against the digest hashed from `longPw73` returns `true`,
where the claim requires `false` for any two distinct plaintexts. -/
theorem C10_truncation_counterexample :
    longPw72 ≠ longPw73 ∧
    hash_password longPw73 0 =
      .ok ⟨DEFAULT_COST, 0, .eks DEFAULT_COST 0 (bcryptInput longPw73)⟩ ∧
    verify_password longPw72 ⟨DEFAULT_COST, 0, .eks DEFAULT_COST 0 (bcryptInput longPw73)⟩ =
      .ok true := by
  refine ⟨by decide, rfl, by decide⟩

/-- C10 (amended): verifying `p` against the digest of `p` succeeds;
verifying `p` against the digest of `p2` fails whenever the effective
bcrypt inputs (null-terminated UTF-8, truncated to 72 bytes) of `p` and
`p2` differ; and two hash calls on the same input with distinct fresh
salts produce distinct digests while both still verify. -/
theorem C10_hash_verify_roundtrip : ∀ (p p2 : String) (s1 s2 : Nat),
    (∀ d, hash_password p s1 = .ok d → verify_password p d = .ok true) ∧
    (∀ d, hash_password p2 s2 = .ok d → bcryptInput p ≠ bcryptInput p2 →
      verify_password p d = .ok false) ∧
    (s1 ≠ s2 → ∀ d1 d2, hash_password p s1 = .ok d1 → hash_password p s2 = .ok d2 →
      d1 ≠ d2 ∧ verify_password p d1 = .ok true ∧ verify_password p d2 = .ok true) := by
  intro p p2 s1 s2
  refine ⟨fun d hd => ?_, fun d hd hne => ?_, fun hs d1 d2 h1 h2 => ?_⟩
  · injection hd with hd
    subst hd
    simp [verify_password]
  · injection hd with hd
    subst hd
    simp only [verify_password, Except.ok.injEq]
    rw [beq_eq_false_iff_ne]
    intro hc
    injection hc with _ _ h3
    exact hne h3.symm
  · injection h1 with h1
    injection h2 with h2
    subst h1
    subst h2
    refine ⟨fun hc => hs ?_, by simp [verify_password], by simp [verify_password]⟩
    have := congrArg BcryptDigest.salt hc
    simpa using this

/-- C10 witness: hashing `right` with salt 0 verifies against `right` and
rejects when the digest was hashed from `wrong` with salt 1; two salts
give two distinct digests for `right`, both verifying. -/
theorem C10_hash_verify_roundtrip_witness :
    verify_password "right" ⟨DEFAULT_COST, 0, .eks DEFAULT_COST 0 (bcryptInput "right")⟩ =
      .ok true ∧
    verify_password "right" ⟨DEFAULT_COST, 1, .eks DEFAULT_COST 1 (bcryptInput "wrong")⟩ =
      .ok false ∧
    (⟨DEFAULT_COST, 0, .eks DEFAULT_COST 0 (bcryptInput "right")⟩ : BcryptDigest) ≠
      ⟨DEFAULT_COST, 1, .eks DEFAULT_COST 1 (bcryptInput "right")⟩ :=
  ⟨(C10_hash_verify_roundtrip "right" "wrong" 0 1).1 _ rfl,
   (C10_hash_verify_roundtrip "right" "wrong" 0 1).2.1 _ rfl (by decide),
   ((C10_hash_verify_roundtrip "right" "right" 0 1).2.2 (by decide) _ _ rfl rfl).1⟩

end RustWebApp
